import Mathlib

/-!
Shallow embedding of the Open-Weather-System Flask application (src/app.py)
and proofs of the spec's claims about it.

Modelling conventions:
* JSON documents returned by the weather provider are `JVal` values; a field
  access `data['k']` that would raise `KeyError`/`TypeError` in Python is an
  `Except PyExc` computation.
* Python floats are modelled as rationals; Python `round` (banker's rounding,
  round-half-to-even) is `pyRound`, and `round(x, 1)` is `pyRound1`.
* Python `dict` preserves insertion order, so `daily_forecast` is an ordered
  list of groups keyed by calendar date.
* Python `set` iteration order is unspecified (hash-dependent); the aggregator
  is therefore parametrised by an enumeration function `ord` whose output, for
  the calls the code makes, is assumed to enumerate the distinct elements
  (`IsSetEnum`).
* The MongoDB collections are ordered lists of records; `insert_one` appends.
-/

/-- A Python exception kind, as raised inside the `try` blocks of
`get_current_weather` and `get_weekly_forecast`. -/
inductive PyExc where
  | keyError
  | typeError
  | indexError
  | jsonError
  | networkError
deriving DecidableEq, Repr

/-- A JSON value as returned by `response.json()`. Objects are ordered
association lists, mirroring Python dicts. -/
inductive JVal where
  | num (q : ℚ)
  | str (s : String)
  | bool (b : Bool)
  | null
  | arr (xs : List JVal)
  | obj (fields : List (String × JVal))

/-- `v['k']` on a JSON value: key lookup on an object, `KeyError` when the key
is missing, `TypeError` when `v` is not an object. -/
def jGet (v : JVal) (k : String) : Except PyExc JVal :=
  match v with
  | .obj fields =>
    match fields.lookup k with
    | some w => .ok w
    | none => .error .keyError
  | _ => .error .typeError

/-- `v[i]` with an integer index: list indexing on an array, `IndexError` when
out of range, `TypeError`/`KeyError` otherwise. -/
def jIdx (v : JVal) (i : Nat) : Except PyExc JVal :=
  match v with
  | .arr xs =>
    match xs.get? i with
    | some w => .ok w
    | none => .error .indexError
  | _ => .error .typeError

/-- Coerce a JSON value to a number, as Python's `round`, `max`, `sum` and
`datetime.fromtimestamp` require; `TypeError` otherwise. -/
def jNum (v : JVal) : Except PyExc ℚ :=
  match v with
  | .num q => .ok q
  | _ => .error .typeError

/-- Coerce a JSON value to a string, as `.capitalize()` requires;
`TypeError` otherwise. -/
def jStr (v : JVal) : Except PyExc String :=
  match v with
  | .str s => .ok s
  | _ => .error .typeError

/-- Python's built-in `round(x)`: round half to even (banker's rounding). -/
def pyRound (q : ℚ) : ℤ :=
  if q - ⌊q⌋ < 1/2 then ⌊q⌋
  else if 1/2 < q - ⌊q⌋ then ⌊q⌋ + 1
  else if ⌊q⌋ % 2 = 0 then ⌊q⌋ else ⌊q⌋ + 1

/-- Python's `round(x, 1)`: round to one decimal place, half to even. -/
def pyRound1 (q : ℚ) : ℚ :=
  (pyRound (10 * q) : ℚ) / 10

/-- Python's `str.capitalize()`: first character upper-cased, the rest
lower-cased. -/
def pyCapitalize (s : String) : String :=
  match s.data with
  | [] => ""
  | c :: cs => String.mk (c.toUpper :: cs.map Char.toLower)

/-- Python truthiness of an optional form-field string: `None` and the empty
string are falsy. -/
def pyTruthy (s : Option String) : Bool :=
  match s with
  | none => false
  | some c => c ≠ ""

/-- `lst.count x` in Python: the number of elements of `lst` equal to `x`. -/
def pyCount (descs : List String) (d : String) : Nat :=
  (descs.filter (fun x => x = d)).length

/-- Python's `max(xs, key=key)` on a list of strings: the first element of
`xs` whose key is maximal (later elements replace the current best only when
strictly greater). Returns `""` on the empty list (where Python would raise
`ValueError`; the aggregator only calls it on nonempty lists). -/
def pyMaxBy (key : String → Nat) : List String → String
  | [] => ""
  | x :: xs => xs.foldl (fun best c => if key best < key c then c else best) x

/-- Python's `max` on a nonempty list of numbers (0 on the empty list, which
the aggregator never passes). -/
def pyMaxQ : List ℚ → ℚ
  | [] => 0
  | x :: xs => xs.foldl max x

/-- Python's `min` on a nonempty list of numbers (0 on the empty list, which
the aggregator never passes). -/
def pyMinQ : List ℚ → ℚ
  | [] => 0
  | x :: xs => xs.foldl min x

/-- Arithmetic mean `sum(xs) / len(xs)` of a list of rationals. -/
def pyMean (xs : List ℚ) : ℚ :=
  xs.sum / (xs.length : ℚ)

/-- `enum` is a possible iteration order of the Python set built from the
list `xs`: no duplicates, and exactly the elements of `xs`. -/
def IsSetEnum (enum xs : List String) : Prop :=
  enum.Nodup ∧ (∀ a ∈ xs, a ∈ enum) ∧ (∀ a ∈ enum, a ∈ xs)

instance (enum xs : List String) : Decidable (IsSetEnum enum xs) := by
  unfold IsSetEnum; infer_instance

/-- First-seen-order deduplication (the order in which Python's set would be
iterated if iteration followed insertion order; also the order of first
occurrences, used to state the spec's tie-break policy). -/
def dedupFirst (xs : List String) : List String :=
  xs.foldl (fun acc a => if a ∈ acc then acc else acc ++ [a]) []

/-! ## Forecast aggregation (`get_weekly_forecast`, src/app.py lines 198-242) -/

/-- One forecast sample from the provider's `data['list']`, with the fields
the aggregation loop extracts. -/
structure Sample where
  dt : ℚ
  temp : ℚ
  description : String
  humidity : ℚ
  wind : ℚ
  icon : String
deriving DecidableEq, Repr

/-- `datetime.fromtimestamp(item['dt']).date()`: the calendar date of a
sample, as a day number (86400-second buckets of the epoch timestamp). -/
def dateOf (s : Sample) : ℤ :=
  ⌊s.dt / 86400⌋

/-- One entry of the `daily_forecast` dict: the per-date accumulator with the
lists built up by the grouping loop, plus the icon of the group's first
sample. -/
structure DayGroup where
  date : ℤ
  temps : List ℚ
  descriptions : List String
  humidity : List ℚ
  wind : List ℚ
  icon : String
deriving DecidableEq, Repr

/-- One iteration of the grouping loop: create the date's entry if absent
(dict insertion order = first-seen order), then append the sample's fields to
that entry's lists. -/
def addSample (acc : List DayGroup) (s : Sample) : List DayGroup :=
  (if acc.any (fun g => g.date = dateOf s) then acc
   else acc ++ [⟨dateOf s, [], [], [], [], s.icon⟩]).map (fun g =>
    if g.date = dateOf s then
      { g with temps := g.temps ++ [s.temp],
               descriptions := g.descriptions ++ [s.description],
               humidity := g.humidity ++ [s.humidity],
               wind := g.wind ++ [s.wind] }
    else g)

/-- The whole grouping loop: `daily_forecast` as an ordered list of groups. -/
def groupByDate (samples : List Sample) : List DayGroup :=
  samples.foldl addSample []

/-- `max(set(descs), key=descs.count)`: `ord` models the (unspecified) set
iteration order; the winner is the first element of `ord descs` whose
occurrence count in `descs` is maximal. -/
def selectDescription (ord : List String → List String) (descs : List String) : String :=
  pyMaxBy (pyCount descs) (ord descs)

/-- One emitted daily summary dict. -/
structure DailySummary where
  date : ℤ
  temp_max : ℤ
  temp_min : ℤ
  description : String
  humidity : ℤ
  wind_speed : ℚ
  icon : String
deriving DecidableEq, Repr

/-- The emission step for one date group (the body of the second loop). -/
def summarize (ord : List String → List String) (g : DayGroup) : DailySummary :=
  { date := g.date,
    temp_max := pyRound (pyMaxQ g.temps),
    temp_min := pyRound (pyMinQ g.temps),
    description := selectDescription ord g.descriptions,
    humidity := pyRound (pyMean g.humidity),
    wind_speed := pyRound1 (pyMean g.wind),
    icon := g.icon }

/-- The aggregation core of `get_weekly_forecast`: group by calendar date in
first-seen order, truncate to the first 7 groups
(`list(daily_forecast.items())[:7]`), and emit one summary per group. -/
def aggregate (ord : List String → List String) (samples : List Sample) : List DailySummary :=
  ((groupByDate samples).take 7).map (summarize ord)

/-! ## Weather client (`get_current_weather` / `get_weekly_forecast`) -/

/-- The outcome of `requests.get`: either an HTTP response, or a raised
network exception. `body = none` models a response whose `.json()` raises. -/
structure HttpResponse where
  status : Nat
  body : Option JVal

/-- A provider interaction as seen by the `try` block. -/
inductive ProviderResult where
  | response (r : HttpResponse)
  | netError

/-- The current-weather snapshot dict built by `get_current_weather`.
Fields stored verbatim from the JSON stay `JVal`; fields Python transforms
(`round`, `.capitalize()`) carry the transformed type. -/
structure CurrentWeather where
  city : JVal
  country : JVal
  temperature : ℤ
  feels_like : ℤ
  description : String
  icon : JVal
  humidity : JVal
  pressure : JVal
  wind_speed : JVal
  timestamp : ℕ

/-- Building the snapshot dict from the decoded JSON body, in source order;
the first failing field access raises. -/
def parseCurrent (data : JVal) (now : ℕ) : Except PyExc CurrentWeather := do
  let name ← jGet data "name"
  let country ← jGet (← jGet data "sys") "country"
  let temp ← jNum (← jGet (← jGet data "main") "temp")
  let feels ← jNum (← jGet (← jGet data "main") "feels_like")
  let descr ← jStr (← jGet (← jIdx (← jGet data "weather") 0) "description")
  let icon ← jGet (← jIdx (← jGet data "weather") 0) "icon"
  let hum ← jGet (← jGet data "main") "humidity"
  let pres ← jGet (← jGet data "main") "pressure"
  let wind ← jGet (← jGet data "wind") "speed"
  pure { city := name, country := country, temperature := pyRound temp,
         feels_like := pyRound feels, description := pyCapitalize descr,
         icon := icon, humidity := hum, pressure := pres, wind_speed := wind,
         timestamp := now }

/-- The `try` block of `get_current_weather`: `.ok (some w)` is the explicit
`return` of the snapshot, `.ok none` is falling through (non-200 status) to
the final `return None`, `.error e` is a raised exception. -/
def fetch_current_body (resp : ProviderResult) (now : ℕ) :
    Except PyExc (Option CurrentWeather) :=
  match resp with
  | .netError => .error .networkError
  | .response r =>
    if r.status = 200 then
      match r.body with
      | none => .error .jsonError
      | some data =>
        match parseCurrent data now with
        | .ok w => .ok (some w)
        | .error e => .error e
    else .ok none

/-- `get_current_weather(city)`: the `try` body with its `except` handler,
which swallows every exception and returns `None`. -/
def get_current_weather (resp : ProviderResult) (now : ℕ) : Option CurrentWeather :=
  match fetch_current_body resp now with
  | .ok w => w
  | .error _ => none

/-- Decoding one item of `data['list']`: the field accesses the grouping loop
performs on each sample. -/
def parseSample (item : JVal) : Except PyExc Sample := do
  let dt ← jNum (← jGet item "dt")
  let icon ← jStr (← jGet (← jIdx (← jGet item "weather") 0) "icon")
  let temp ← jNum (← jGet (← jGet item "main") "temp")
  let descr ← jStr (← jGet (← jIdx (← jGet item "weather") 0) "description")
  let hum ← jNum (← jGet (← jGet item "main") "humidity")
  let wind ← jNum (← jGet (← jGet item "wind") "speed")
  pure ⟨dt, temp, descr, hum, wind, icon⟩

/-- Decoding `data['list']` itself: it must be an array of well-formed items
(`TypeError`/`KeyError` otherwise). -/
def parseSamples (data : JVal) : Except PyExc (List Sample) := do
  match ← jGet data "list" with
  | .arr items => items.mapM parseSample
  | _ => .error .typeError

/-- The `try` block of `get_weekly_forecast`: decode the samples and run the
aggregation; `.ok none` is falling through (non-200) to `return []`. -/
def fetch_forecast_body (resp : ProviderResult) (ord : List String → List String) :
    Except PyExc (Option (List DailySummary)) :=
  match resp with
  | .netError => .error .networkError
  | .response r =>
    if r.status = 200 then
      match r.body with
      | none => .error .jsonError
      | some data =>
        match parseSamples data with
        | .ok samples => .ok (some (aggregate ord samples))
        | .error e => .error e
    else .ok none

/-- `get_weekly_forecast(city)`: the `try` body with its `except` handler,
which swallows every exception and returns `[]`. -/
def get_weekly_forecast (resp : ProviderResult) (ord : List String → List String) :
    List DailySummary :=
  match fetch_forecast_body resp ord with
  | .ok (some l) => l
  | .ok none => []
  | .error _ => []

/-! ## Persistence and route handlers -/

/-- A document of the `weather_queries` collection. -/
structure WeatherQuery where
  user_id : ℕ
  city : String
  query_time : ℕ
  weather_data : CurrentWeather
  forecast : List DailySummary

/-- User preferences subdocument. -/
structure Preferences where
  units : String
  notifications : Bool
deriving DecidableEq, Repr

/-- A document of the `users` collection. -/
structure User where
  username : String
  email : String
  password : String
  city : String
  created_at : ℕ
  preferences : Preferences
deriving DecidableEq, Repr

/-- Where a handler redirects. -/
inductive RedirectTarget where
  | dashboardPage
  | profilePage
  | loginPage
  | registerPage
deriving DecidableEq, Repr

/-- `GET /dashboard` (the post-authentication body): fetch current weather and
forecast for the user's city; when the current-weather fetch succeeded, append
a `WeatherQuery` document carrying the snapshot and the forecast; return the
rendered data and the updated `weather_queries` collection. -/
def dashboard (uid : ℕ) (city : String) (now : ℕ)
    (respCur respFor : ProviderResult) (ord : List String → List String)
    (qs : List WeatherQuery) :
    (Option CurrentWeather × List DailySummary) × List WeatherQuery :=
  let cw := get_current_weather respCur now
  let fc := get_weekly_forecast respFor ord
  match cw with
  | some w => ((cw, fc), qs ++ [⟨uid, city, now, w, fc⟩])
  | none => ((cw, fc), qs)

/-- `GET /api/weather/(city)` (the post-authentication body): fetch current
weather and forecast and return them as JSON; the `weather_queries`
collection is returned as the handler leaves it. -/
def api_weather (uid : ℕ) (city : String) (now : ℕ)
    (respCur respFor : ProviderResult) (ord : List String → List String)
    (qs : List WeatherQuery) :
    (Option CurrentWeather × List DailySummary) × List WeatherQuery :=
  ((get_current_weather respCur now, get_weekly_forecast respFor ord), qs)

/-- Outcome of a `POST /register`. -/
inductive RegOutcome where
  | duplicate
  | success
deriving DecidableEq, Repr

/-- The session cookie: the logged-in user id, if any. -/
def SessionState := Option ℕ

/-- `POST /register`: reject when a user with the same username or email
exists (flash + redirect back, no insert); otherwise insert a new user with
the hashed password and default preferences. The session is never touched. -/
def register (users : List User) (username email password : String)
    (city : Option String) (hash : String → String) (now : ℕ)
    (sess : SessionState) : List User × SessionState × RegOutcome :=
  if users.any (fun u => u.username = username ∨ u.email = email) then
    (users, sess, .duplicate)
  else
    (users ++ [⟨username, email, hash password, city.getD "Your city", now,
               ⟨"metric", true⟩⟩],
     sess, .success)

/-- `POST /update_city`: when the submitted city is truthy, store it on the
user document and in the session; either way redirect to the dashboard. -/
def update_city (u : User) (sessCity : String) (city : Option String) :
    User × String × RedirectTarget :=
  if pyTruthy city then
    ({ u with city := city.getD "" }, city.getD "", .dashboardPage)
  else
    (u, sessCity, .dashboardPage)

/-- `POST /update_preferences`: store the submitted units value (defaulting to
`"metric"` when the field is absent) and the checkbox state, then redirect to
the profile page. No validation of the units value is performed. -/
def update_preferences (u : User) (units notifications : Option String) :
    User × RedirectTarget :=
  ({ u with preferences := ⟨units.getD "metric", notifications == some "on"⟩ },
   .profilePage)

/-- Number of user documents with the given username. -/
def countUsername (users : List User) (username : String) : ℕ :=
  (users.filter (fun u => u.username = username)).length

/-! ## Spec-side definitions and concrete fixtures -/

/-- Insert a date key if unseen, keeping first-seen order (the key order of a
Python dict). -/
def seenInsert (ks : List ℤ) (d : ℤ) : List ℤ :=
  if d ∈ ks then ks else ks ++ [d]

/-- The distinct calendar dates of a sample sequence, in first-encountered
order. -/
def dedupDates (ds : List ℤ) : List ℤ :=
  ds.foldl seenInsert []

/-- Modelled from the spec's tie-break policy ("on equal counts,
earliest-appearing wins"): among the distinct descriptions in
first-occurrence order, the first whose count is maximal. Stated for
comparison with `selectDescription`, which follows the code. -/
def specDescription (descs : List String) : String :=
  pyMaxBy (pyCount descs) (dedupFirst descs)

/-- A possible Python set iteration order that reverses first-occurrence
order (set order is hash-dependent and unspecified). -/
def revEnum (xs : List String) : List String :=
  (dedupFirst xs).reverse

/-- The description multiset of the spec's own tie-break example. -/
def c2descs : List String := ["cloudy", "cloudy", "rain", "rain"]

/-- Four samples on one calendar day realising the spec's tie-break example:
"cloudy" and "rain" both occur twice, "cloudy" first. -/
def c2samples : List Sample :=
  [⟨0, 10, "cloudy", 50, 3, "02d"⟩,
   ⟨3600, 11, "cloudy", 52, 4, "02d"⟩,
   ⟨7200, 12, "rain", 54, 5, "09d"⟩,
   ⟨10800, 13, "rain", 56, 6, "09d"⟩]

/-- A well-formed provider body for the current-weather endpoint. -/
def goodBody : JVal :=
  .obj [("coord", .obj []),
        ("weather", .arr [.obj [("description", .str "light rain"),
                                ("icon", .str "10d")]]),
        ("main", .obj [("temp", .num 10), ("feels_like", .num 9),
                       ("humidity", .num 80), ("pressure", .num 1012)]),
        ("wind", .obj [("speed", .num 5)]),
        ("sys", .obj [("country", .str "GB")]),
        ("name", .str "London")]

/-- A successful (HTTP 200, well-formed) current-weather provider response. -/
def goodResp : ProviderResult := .response ⟨200, some goodBody⟩

/-- The snapshot `get_current_weather` builds from `goodBody` at time 0. -/
def goodSnapshot : CurrentWeather :=
  { city := .str "London", country := .str "GB", temperature := 10,
    feels_like := 9, description := "Light rain", icon := .str "10d",
    humidity := .num 80, pressure := .num 1012, wind_speed := .num 5,
    timestamp := 0 }

/-- An HTTP 404 provider response (unknown city). -/
def resp404 : ProviderResult := .response ⟨404, none⟩

/-- An HTTP 200 response whose body is not valid JSON (`response.json()`
raises). -/
def respBadJson : ProviderResult := .response ⟨200, none⟩

/-- A concrete stored user. -/
def u0 : User := ⟨"alice", "alice@example.com", "hashed", "London", 0, ⟨"metric", true⟩⟩

/-- A one-user store, for the duplicate-registration witness. -/
def users0 : List User := [u0]

/-- The single summary the aggregator emits for `c2samples` under the
enumeration order `revEnum`. -/
def rainSummary : DailySummary :=
  ⟨0, 13, 10, "rain", 53, 9/2, "02d"⟩

/-- Every group the grouping loop has built carries at least one sample in
each of its per-field lists. -/
def GroupsWF (gs : List DayGroup) : Prop :=
  ∀ g ∈ gs, g.temps ≠ [] ∧ g.descriptions ≠ [] ∧ g.humidity ≠ [] ∧ g.wind ≠ []

/-! ## Helper lemmas -/

theorem floor_le_pyRound (q : ℚ) : ⌊q⌋ ≤ pyRound q := by
  unfold pyRound
  split_ifs <;> omega

theorem pyRound_le_floor_add_one (q : ℚ) : pyRound q ≤ ⌊q⌋ + 1 := by
  unfold pyRound
  split_ifs <;> omega

theorem pyRound_near (q : ℚ) : |(pyRound q : ℚ) - q| ≤ 1/2 := by
  have h1 : (⌊q⌋ : ℚ) ≤ q := Int.floor_le q
  have h2 : q < ⌊q⌋ + 1 := Int.lt_floor_add_one q
  unfold pyRound
  split_ifs with ha hb hc <;> rw [abs_le] <;> constructor <;> push_cast <;> linarith

theorem pyRound_mono {q r : ℚ} (h : q ≤ r) : pyRound q ≤ pyRound r := by
  rcases lt_or_eq_of_le (Int.floor_le_floor h) with hf | hf
  · calc pyRound q ≤ ⌊q⌋ + 1 := pyRound_le_floor_add_one q
      _ ≤ ⌊r⌋ := by omega
      _ ≤ pyRound r := floor_le_pyRound r
  · unfold pyRound
    rw [hf]
    split_ifs <;> first | omega | linarith

theorem pyRound1_near (q : ℚ) : |pyRound1 q - q| ≤ 1/20 := by
  have h := pyRound_near (10 * q)
  unfold pyRound1
  have heq : (pyRound (10 * q) : ℚ) / 10 - q = ((pyRound (10 * q) : ℚ) - 10 * q) / 10 := by
    ring
  rw [heq, abs_div]
  rw [show |(10 : ℚ)| = 10 by norm_num]
  linarith

theorem foldl_min_le_init (t : List ℚ) (x : ℚ) : t.foldl min x ≤ x := by
  induction t generalizing x with
  | nil => exact le_refl x
  | cons a t ih =>
    calc (a :: t).foldl min x = t.foldl min (min x a) := rfl
      _ ≤ min x a := ih (min x a)
      _ ≤ x := min_le_left x a

theorem init_le_foldl_max (t : List ℚ) (x : ℚ) : x ≤ t.foldl max x := by
  induction t generalizing x with
  | nil => exact le_refl x
  | cons a t ih =>
    calc x ≤ max x a := le_max_left x a
      _ ≤ t.foldl max (max x a) := ih (max x a)
      _ = (a :: t).foldl max x := rfl

theorem pyMinQ_le_pyMaxQ {xs : List ℚ} (h : xs ≠ []) : pyMinQ xs ≤ pyMaxQ xs := by
  match xs with
  | [] => exact absurd rfl h
  | x :: t =>
    calc pyMinQ (x :: t) = t.foldl min x := rfl
      _ ≤ x := foldl_min_le_init t x
      _ ≤ t.foldl max x := init_le_foldl_max t x
      _ = pyMaxQ (x :: t) := rfl

theorem foldl_maxBy_spec (key : String → Nat) (xs : List String) (x : String) :
    (xs.foldl (fun best c => if key best < key c then c else best) x) ∈ x :: xs ∧
      ∀ y ∈ x :: xs,
        key y ≤ key (xs.foldl (fun best c => if key best < key c then c else best) x) := by
  induction xs generalizing x with
  | nil => simp
  | cons c cs ih =>
    obtain ⟨hmem, hmax⟩ := ih (if key x < key c then c else x)
    have hstep : (if key x < key c then c else x) = c ∨
        (if key x < key c then c else x) = x := by
      split
      · exact Or.inl rfl
      · exact Or.inr rfl
    have hkx : key x ≤ key (if key x < key c then c else x) := by
      split
      · omega
      · exact le_refl _
    have hkc : key c ≤ key (if key x < key c then c else x) := by
      split
      · exact le_refl _
      · omega
    constructor
    · rw [List.foldl_cons]
      rcases List.mem_cons.mp hmem with hm | hm
      · rcases hstep with hs | hs
        · rw [hm, hs]; exact List.mem_cons_of_mem _ (List.mem_cons_self _ _)
        · rw [hm, hs]; exact List.mem_cons_self _ _
      · exact List.mem_cons_of_mem _ (List.mem_cons_of_mem _ hm)
    · intro y hy
      rw [List.foldl_cons]
      have hhead : key (if key x < key c then c else x) ≤
          key (cs.foldl (fun best c => if key best < key c then c else best)
            (if key x < key c then c else x)) :=
        hmax _ (List.mem_cons_self _ _)
      rcases List.mem_cons.mp hy with rfl | hy
      · exact le_trans hkx hhead
      · rcases List.mem_cons.mp hy with rfl | hy
        · exact le_trans hkc hhead
        · exact hmax _ (List.mem_cons_of_mem _ hy)


theorem addSample_wf {acc : List DayGroup} (hacc : GroupsWF acc) (s : Sample) :
    GroupsWF (addSample acc s) := by
  intro g' hg'
  unfold addSample at hg'
  rcases List.mem_map.mp hg' with ⟨g, hg, rfl⟩
  by_cases hd : g.date = dateOf s
  · simp only [hd, if_pos, if_true]
    refine ⟨?_, ?_, ?_, ?_⟩ <;> simp
  · simp only [hd, if_neg, if_false, ite_false]
    split at hg
    · exact hacc g hg
    · rcases List.mem_append.mp hg with hg | hg
      · exact hacc g hg
      · exfalso
        rcases List.mem_singleton.mp hg with rfl
        exact hd rfl

theorem foldl_addSample_wf (l : List Sample) (acc : List DayGroup)
    (hacc : GroupsWF acc) : GroupsWF (l.foldl addSample acc) := by
  induction l generalizing acc with
  | nil => exact hacc
  | cons s t ih => exact ih (addSample acc s) (addSample_wf hacc s)

theorem groupByDate_wf (samples : List Sample) : GroupsWF (groupByDate samples) :=
  foldl_addSample_wf samples [] (fun g hg => absurd hg (List.not_mem_nil g))

theorem addSample_dates (acc : List DayGroup) (s : Sample) :
    (addSample acc s).map DayGroup.date = seenInsert (acc.map DayGroup.date) (dateOf s) := by
  unfold addSample seenInsert
  have hmem : (acc.any fun g => g.date = dateOf s) = true ↔
      dateOf s ∈ acc.map DayGroup.date := by
    simp only [List.any_eq_true, decide_eq_true_eq, List.mem_map]
  have hpresdate : ∀ (l : List DayGroup),
      (l.map fun g =>
        if g.date = dateOf s then
          { g with temps := g.temps ++ [s.temp],
                   descriptions := g.descriptions ++ [s.description],
                   humidity := g.humidity ++ [s.humidity],
                   wind := g.wind ++ [s.wind] }
        else g).map DayGroup.date = l.map DayGroup.date := by
    intro l
    rw [List.map_map]
    apply List.map_congr_left
    intro g _
    by_cases hg : g.date = dateOf s <;> simp [hg]
  by_cases hin : dateOf s ∈ acc.map DayGroup.date
  · rw [if_pos (hmem.mpr hin), if_pos hin, hpresdate]
  · rw [if_neg (fun h => hin (hmem.mp h)), if_neg hin, hpresdate]
    simp

theorem foldl_addSample_dates (l : List Sample) (acc : List DayGroup) :
    (l.foldl addSample acc).map DayGroup.date =
      (l.map dateOf).foldl seenInsert (acc.map DayGroup.date) := by
  induction l generalizing acc with
  | nil => rfl
  | cons s t ih =>
    rw [List.foldl_cons, List.map_cons, List.foldl_cons, ih, addSample_dates]

theorem groupByDate_dates (samples : List Sample) :
    (groupByDate samples).map DayGroup.date = dedupDates (samples.map dateOf) := by
  unfold groupByDate dedupDates
  exact foldl_addSample_dates samples []

theorem mem_aggregate {ord : List String → List String} {samples : List Sample}
    {s : DailySummary} (h : s ∈ aggregate ord samples) :
    ∃ g ∈ groupByDate samples, s = summarize ord g := by
  unfold aggregate at h
  rcases List.mem_map.mp h with ⟨g, hg, rfl⟩
  exact ⟨g, List.take_subset 7 _ hg, rfl⟩

theorem aggregate_c2_eval : aggregate revEnum c2samples = [rainSummary] := by
  norm_num [aggregate, groupByDate, addSample, dateOf, c2samples, summarize,
    selectDescription, pyMaxBy, pyCount, pyMean, pyRound, pyRound1, pyMaxQ,
    pyMinQ, revEnum, dedupFirst, rainSummary, seenInsert]
  decide

theorem groupByDate_c2_descriptions :
    (groupByDate c2samples).map DayGroup.descriptions = [c2descs] := by
  norm_num [groupByDate, addSample, dateOf, c2samples, c2descs]

/-! ## Claims -/

/-- C3: for every input sequence of forecast samples (and any set iteration
order), the aggregator returns at most 7 daily summaries, and every returned
summary satisfies temp_max ≥ temp_min. -/
theorem c3_aggregate_bounds (ord : List String → List String) (samples : List Sample) :
    (aggregate ord samples).length ≤ 7 ∧
      ∀ s ∈ aggregate ord samples, s.temp_min ≤ s.temp_max := by
  constructor
  · unfold aggregate
    rw [List.length_map, List.length_take]
    exact min_le_left 7 _
  · intro s hs
    rcases mem_aggregate hs with ⟨g, hg, rfl⟩
    have htne := (groupByDate_wf samples g hg).1
    show pyRound (pyMinQ g.temps) ≤ pyRound (pyMaxQ g.temps)
    exact pyRound_mono (pyMinQ_le_pyMaxQ htne)

/-- C3 witness: a concrete emitted summary, with its membership hypothesis
discharged by evaluation. -/
theorem c3_aggregate_bounds_witness :
    rainSummary ∈ aggregate revEnum c2samples ∧
      rainSummary.temp_min ≤ rainSummary.temp_max :=
  ⟨by rw [aggregate_c2_eval]; exact List.mem_singleton_self _,
   (c3_aggregate_bounds revEnum c2samples).2 rainSummary
     (by rw [aggregate_c2_eval]; exact List.mem_singleton_self _)⟩

/-- C4: the aggregator groups samples by the calendar date of their timestamp
and emits one summary per date in first-encountered order, truncated to the
first 7 distinct dates, which therefore appear in the output in the input's
relative order. -/
theorem c4_dates_first_seen_order (ord : List String → List String) (samples : List Sample) :
    (aggregate ord samples).map DailySummary.date =
      (dedupDates (samples.map dateOf)).take 7 := by
  unfold aggregate
  rw [List.map_map]
  have hcomp : DailySummary.date ∘ summarize ord = DayGroup.date := rfl
  rw [hcomp, List.map_take, groupByDate_dates]

/-- C4 witness: the date-order equation evaluated on a concrete input. -/
theorem c4_dates_first_seen_order_witness :
    (aggregate revEnum c2samples).map DailySummary.date =
      (dedupDates (c2samples.map dateOf)).take 7 :=
  c4_dates_first_seen_order revEnum c2samples

/-- C7: every emitted summary's humidity equals the group's mean humidity
rounded to the nearest integer (within 1/2 of the mean), and its wind speed
equals the mean wind speed rounded to one decimal place (within 1/20 of the
mean). -/
theorem c7_humidity_wind_means (ord : List String → List String)
    (samples : List Sample) (s : DailySummary) (h : s ∈ aggregate ord samples) :
    ∃ g ∈ groupByDate samples,
      s = summarize ord g ∧
      s.humidity = pyRound (pyMean g.humidity) ∧
      |(s.humidity : ℚ) - pyMean g.humidity| ≤ 1/2 ∧
      s.wind_speed = pyRound1 (pyMean g.wind) ∧
      |s.wind_speed - pyMean g.wind| ≤ 1/20 := by
  rcases mem_aggregate h with ⟨g, hg, rfl⟩
  exact ⟨g, hg, rfl, rfl, pyRound_near (pyMean g.humidity), rfl,
         pyRound1_near (pyMean g.wind)⟩

/-- C7 witness: the mean/rounding facts instantiated at a concrete emitted
summary. -/
theorem c7_humidity_wind_means_witness :
    rainSummary ∈ aggregate revEnum c2samples ∧
      ∃ g ∈ groupByDate c2samples,
        rainSummary = summarize revEnum g ∧
        rainSummary.humidity = pyRound (pyMean g.humidity) ∧
        |(rainSummary.humidity : ℚ) - pyMean g.humidity| ≤ 1/2 ∧
        rainSummary.wind_speed = pyRound1 (pyMean g.wind) ∧
        |rainSummary.wind_speed - pyMean g.wind| ≤ 1/20 :=
  ⟨by rw [aggregate_c2_eval]; exact List.mem_singleton_self _,
   c7_humidity_wind_means revEnum c2samples rainSummary
     (by rw [aggregate_c2_eval]; exact List.mem_singleton_self _)⟩

/-- C2 counterexample: on the spec's own example day
(descriptions cloudy, cloudy, rain, rain), a legitimate set iteration order
(`revEnum`, the reverse of first-occurrence order) makes the code emit
"rain", while the claimed earliest-first-occurrence tie-break
(`specDescription`) yields "cloudy". -/
theorem c2_tiebreak_counterexample :
    IsSetEnum (revEnum c2descs) c2descs ∧
    (groupByDate c2samples).map DayGroup.descriptions = [c2descs] ∧
    (aggregate revEnum c2samples).map DailySummary.description = ["rain"] ∧
    specDescription c2descs = "cloudy" ∧
    ("rain" : String) ≠ "cloudy" := by
  refine ⟨by decide, groupByDate_c2_descriptions, ?_, by decide, by decide⟩
  rw [aggregate_c2_eval]
  decide

/-- C2 (amended): for every date group, the emitted description is one of the
group's descriptions with maximal occurrence count, and when one description
is strictly most frequent it is the one emitted; on ties the winner depends
on the set iteration order and need not be the earliest-appearing. -/
theorem c2_description_most_frequent (ord : List String → List String)
    (descs : List String) (henum : IsSetEnum (ord descs) descs)
    (hne : descs ≠ []) :
    selectDescription ord descs ∈ descs ∧
    (∀ d ∈ descs, pyCount descs d ≤ pyCount descs (selectDescription ord descs)) ∧
    (∀ d ∈ descs,
      (∀ d' ∈ descs, d' ≠ d → pyCount descs d' < pyCount descs d) →
      selectDescription ord descs = d) := by
  obtain ⟨hnd, hto, hfro⟩ := henum
  obtain ⟨a, ha⟩ := List.exists_mem_of_ne_nil descs hne
  have hene : ord descs ≠ [] := List.ne_nil_of_mem (hto a ha)
  obtain ⟨e, es, hcons⟩ := List.exists_cons_of_ne_nil hene
  have hspec : pyMaxBy (pyCount descs) (e :: es) ∈ e :: es ∧
      ∀ y ∈ e :: es, pyCount descs y ≤ pyCount descs (pyMaxBy (pyCount descs) (e :: es)) :=
    foldl_maxBy_spec (pyCount descs) es e
  have hsel : selectDescription ord descs = pyMaxBy (pyCount descs) (e :: es) := by
    unfold selectDescription
    rw [hcons]
  have hmem : selectDescription ord descs ∈ descs := by
    rw [hsel]
    exact hfro _ (hcons ▸ hspec.1)
  have hmax : ∀ d ∈ descs, pyCount descs d ≤ pyCount descs (selectDescription ord descs) := by
    intro d hd
    rw [hsel]
    exact hspec.2 d (hcons ▸ hto d hd)
  refine ⟨hmem, hmax, ?_⟩
  intro d hd hu
  by_cases heq : selectDescription ord descs = d
  · exact heq
  · exact absurd (hmax d hd) (not_le.mpr (hu _ hmem heq))

/-- C2 (amended) witness: the maximal-count property evaluated on the
concrete example day with a concrete valid enumeration order. -/
theorem c2_description_most_frequent_witness :
    IsSetEnum (revEnum c2descs) c2descs ∧ c2descs ≠ [] ∧
    selectDescription revEnum c2descs ∈ c2descs ∧
    (∀ d ∈ c2descs, pyCount c2descs d ≤ pyCount c2descs (selectDescription revEnum c2descs)) ∧
    (∀ d ∈ c2descs,
      (∀ d' ∈ c2descs, d' ≠ d → pyCount c2descs d' < pyCount c2descs d) →
      selectDescription revEnum c2descs = d) :=
  ⟨by decide, by decide,
   (c2_description_most_frequent revEnum c2descs (by decide) (by decide)).1,
   (c2_description_most_frequent revEnum c2descs (by decide) (by decide)).2.1,
   (c2_description_most_frequent revEnum c2descs (by decide) (by decide)).2.2⟩

theorem get_current_goodResp_eval :
    get_current_weather goodResp 0 = some goodSnapshot := by
  have ht : pyRound (10 : ℚ) = 10 := by norm_num [pyRound]
  have hf : pyRound (9 : ℚ) = 9 := by norm_num [pyRound]
  have hc : pyCapitalize "light rain" = "Light rain" := by decide
  simp [get_current_weather, fetch_current_body, goodResp, goodBody,
    parseCurrent, jGet, jIdx, jNum, jStr, goodSnapshot, ht, hf, hc,
    List.lookup, Except.bind, bind, pure, Except.pure]

/-- C1 counterexample: a successful current-weather fetch during an API
lookup (`GET /api/weather/(city)`) appends no `WeatherQuery` record: the
collection is left empty. -/
theorem c1_api_no_record_counterexample :
    (get_current_weather goodResp 0).isSome = true ∧
    (api_weather 1 "London" 0 goodResp ProviderResult.netError dedupFirst []).2 = [] := by
  refine ⟨?_, rfl⟩
  rw [get_current_goodResp_eval]
  rfl

/-- C1 (amended): only the dashboard view appends a `WeatherQuery` on a
successful current-weather fetch — it appends exactly one record carrying the
snapshot and the forecast — while the API lookup never modifies the
`weather_queries` collection. -/
theorem c1_dashboard_appends_api_does_not (uid : ℕ) (city : String) (now : ℕ)
    (respCur respFor : ProviderResult) (ord : List String → List String)
    (qs : List WeatherQuery) (w : CurrentWeather)
    (h : get_current_weather respCur now = some w) :
    (dashboard uid city now respCur respFor ord qs).2 =
      qs ++ [⟨uid, city, now, w, get_weekly_forecast respFor ord⟩] ∧
    ∀ qs', (api_weather uid city now respCur respFor ord qs').2 = qs' := by
  constructor
  · simp [dashboard, h]
  · intro qs'
    rfl

/-- C1 (amended) witness: the dashboard append evaluated at a concrete
successful response. -/
theorem c1_dashboard_appends_witness :
    get_current_weather goodResp 0 = some goodSnapshot ∧
    (dashboard 1 "London" 0 goodResp ProviderResult.netError dedupFirst []).2 =
      [] ++ [⟨1, "London", 0, goodSnapshot,
              get_weekly_forecast ProviderResult.netError dedupFirst⟩] :=
  ⟨get_current_goodResp_eval,
   (c1_dashboard_appends_api_does_not 1 "London" 0 goodResp
      ProviderResult.netError dedupFirst [] goodSnapshot
      get_current_goodResp_eval).1⟩

/-- C5: on a non-success HTTP status, a network failure, a malformed JSON
body, or a body whose parsing raises, `get_current_weather` returns `None`,
and the dashboard handler appends no `WeatherQuery` record. -/
theorem c5_failure_none_no_record (resp : ProviderResult) (now : ℕ)
    (h : resp = ProviderResult.netError ∨
         (∃ r, resp = ProviderResult.response r ∧ r.status ≠ 200) ∨
         (∃ r, resp = ProviderResult.response r ∧ r.body = none) ∨
         (∃ r d e, resp = ProviderResult.response r ∧ r.body = some d ∧
            parseCurrent d now = Except.error e)) :
    get_current_weather resp now = none ∧
    ∀ (uid : ℕ) (city : String) (respFor : ProviderResult)
      (ord : List String → List String) (qs : List WeatherQuery),
      (dashboard uid city now resp respFor ord qs).2 = qs := by
  have hnone : get_current_weather resp now = none := by
    rcases h with rfl | ⟨r, rfl, hs⟩ | ⟨r, rfl, hb⟩ | ⟨r, d, e, rfl, hb, hp⟩
    · rfl
    · simp [get_current_weather, fetch_current_body, hs]
    · rcases eq_or_ne r.status 200 with hs | hs <;>
        simp [get_current_weather, fetch_current_body, hs, hb]
    · rcases eq_or_ne r.status 200 with hs | hs <;>
        simp [get_current_weather, fetch_current_body, hs, hb, hp]
  refine ⟨hnone, ?_⟩
  intro uid city respFor ord qs
  simp [dashboard, hnone]

/-- C5 witness: an HTTP 404 response yields no snapshot and an unchanged
`weather_queries` collection. -/
theorem c5_failure_none_no_record_witness :
    get_current_weather resp404 0 = none ∧
    (dashboard 1 "Nowhere" 0 resp404 ProviderResult.netError dedupFirst []).2 = [] := by
  have h := c5_failure_none_no_record resp404 0
    (Or.inr (Or.inl ⟨⟨404, none⟩, rfl, by decide⟩))
  exact ⟨h.1, h.2 1 "Nowhere" ProviderResult.netError dedupFirst []⟩

theorem countUsername_append (l : List User) (u : User) (un : String) :
    countUsername (l ++ [u]) un =
      countUsername l un + (if u.username = un then 1 else 0) := by
  unfold countUsername
  rw [List.filter_append]
  by_cases hu : u.username = un <;> simp [hu]

theorem register_twice_count (users : List User) (un em em2 pw pw2 : String)
    (c c2 : Option String) (hs : String → String) (t t2 : ℕ) (s s2 : SessionState) :
    countUsername (register (register users un em pw c hs t s).1 un em2 pw2 c2 hs t2 s2).1 un ≤
      countUsername users un + 1 := by
  by_cases h1 : (users.any fun u => u.username = un ∨ u.email = em) = true
  · have e1 : (register users un em pw c hs t s).1 = users := by
      unfold register
      rw [if_pos h1]
    rw [e1]
    by_cases h2 : (users.any fun u => u.username = un ∨ u.email = em2) = true
    · have e2 : (register users un em2 pw2 c2 hs t2 s2).1 = users := by
        unfold register
        rw [if_pos h2]
      rw [e2]
      omega
    · have e2 : (register users un em2 pw2 c2 hs t2 s2).1 =
          users ++ [⟨un, em2, hs pw2, c2.getD "Your city", t2, ⟨"metric", true⟩⟩] := by
        unfold register
        rw [if_neg h2]
      rw [e2, countUsername_append]
      split <;> omega
  · have e1 : (register users un em pw c hs t s).1 =
        users ++ [⟨un, em, hs pw, c.getD "Your city", t, ⟨"metric", true⟩⟩] := by
      unfold register
      rw [if_neg h1]
    have h2 : ((users ++ [(⟨un, em, hs pw, c.getD "Your city", t, ⟨"metric", true⟩⟩ : User)]).any
        fun u => u.username = un ∨ u.email = em2) = true := by
      rw [List.any_eq_true]
      refine ⟨⟨un, em, hs pw, c.getD "Your city", t, ⟨"metric", true⟩⟩,
        List.mem_append_right _ (List.mem_singleton_self _), ?_⟩
      simp
    have e2 : (register (users ++ [(⟨un, em, hs pw, c.getD "Your city", t, ⟨"metric", true⟩⟩ : User)])
        un em2 pw2 c2 hs t2 s2).1 =
        users ++ [(⟨un, em, hs pw, c.getD "Your city", t, ⟨"metric", true⟩⟩ : User)] := by
      unfold register
      rw [if_pos h2]
    rw [e1, e2, countUsername_append]
    simp

theorem register_session_unchanged (users : List User) (un em pw : String)
    (c : Option String) (hs : String → String) (t : ℕ) (s : SessionState) :
    (register users un em pw c hs t s).2.1 = s := by
  unfold register
  split <;> rfl

/-- C6: registering with a username or email that already exists fails with
the duplicate condition and leaves the user store unchanged; two successive
registrations of the same username create at most one record; and
registration never touches the session (no auto-authentication). -/
theorem c6_register_duplicate (users : List User) (username email password : String)
    (city : Option String) (hash : String → String) (now : ℕ) (sess : SessionState)
    (h : ∃ u ∈ users, u.username = username ∨ u.email = email) :
    register users username email password city hash now sess =
      (users, sess, RegOutcome.duplicate) ∧
    (∀ (users' : List User) (un em em2 pw pw2 : String) (c c2 : Option String)
        (hs : String → String) (t t2 : ℕ) (s s2 : SessionState),
        countUsername (register (register users' un em pw c hs t s).1
          un em2 pw2 c2 hs t2 s2).1 un ≤ countUsername users' un + 1) ∧
    (∀ (users' : List User) (un em pw : String) (c : Option String)
        (hs : String → String) (t : ℕ) (s : SessionState),
        (register users' un em pw c hs t s).2.1 = s) := by
  refine ⟨?_, register_twice_count, register_session_unchanged⟩
  have hany : (users.any fun u => u.username = username ∨ u.email = email) = true := by
    rw [List.any_eq_true]
    obtain ⟨u, hu, hor⟩ := h
    exact ⟨u, hu, by simpa using hor⟩
  unfold register
  rw [if_pos hany]

/-- C6 witness: a duplicate registration against a concrete one-user store. -/
theorem c6_register_duplicate_witness :
    (∃ u ∈ users0, u.username = "alice" ∨ u.email = "bob@example.com") ∧
    register users0 "alice" "bob@example.com" "pw" none (fun p => p) 5 none =
      (users0, none, RegOutcome.duplicate) :=
  ⟨by decide,
   (c6_register_duplicate users0 "alice" "bob@example.com" "pw" none
      (fun p => p) 5 none (by decide)).1⟩

/-- C8 counterexample: `update_preferences` stores whatever units string the
request submits — a request carrying "kelvin" leaves the stored units
outside {metric, imperial}. -/
theorem c8_units_unvalidated_counterexample :
    (update_preferences u0 (some "kelvin") none).1.preferences.units = "kelvin" ∧
    ¬(("kelvin" : String) = "metric" ∨ ("kelvin" : String) = "imperial") := by
  decide

/-- C8 (amended): when the submitted units field is absent or one of the
form's two values {metric, imperial}, the stored units value after
`POST /update_preferences` is in {metric, imperial}; in general the handler
stores the submitted string unvalidated. -/
theorem c8_units_membership (u : User) (units notifications : Option String)
    (h : units = none ∨ units = some "metric" ∨ units = some "imperial") :
    (update_preferences u units notifications).1.preferences.units = "metric" ∨
    (update_preferences u units notifications).1.preferences.units = "imperial" := by
  rcases h with rfl | rfl | rfl
  · exact Or.inl rfl
  · exact Or.inl rfl
  · exact Or.inr rfl

/-- C8 (amended) witness: a well-formed submission stores a valid units
value. -/
theorem c8_units_membership_witness :
    ((some "imperial" : Option String) = none ∨
      (some "imperial" : Option String) = some "metric" ∨
      (some "imperial" : Option String) = some "imperial") ∧
    ((update_preferences u0 (some "imperial") (some "on")).1.preferences.units = "metric" ∨
      (update_preferences u0 (some "imperial") (some "on")).1.preferences.units = "imperial") :=
  ⟨Or.inr (Or.inr rfl),
   c8_units_membership u0 (some "imperial") (some "on") (Or.inr (Or.inr rfl))⟩

/-- C9: when the submitted city field is absent or empty (falsy), a
`POST /update_city` leaves the user document and the session city unchanged
and still redirects to the dashboard. -/
theorem c9_blank_city_noop (u : User) (sessCity : String) (city : Option String)
    (h : city = none ∨ city = some "") :
    update_city u sessCity city = (u, sessCity, RedirectTarget.dashboardPage) := by
  rcases h with rfl | rfl
  · rfl
  · rfl

/-- C9 witness: the no-op evaluated at an absent city field. -/
theorem c9_blank_city_noop_witness :
    ((none : Option String) = none ∨ (none : Option String) = some "") ∧
    update_city u0 "London" none = (u0, "London", RedirectTarget.dashboardPage) :=
  ⟨Or.inl rfl, c9_blank_city_noop u0 "London" none (Or.inl rfl)⟩

/-- C10: the two weather functions are total at their public boundary —
whenever the `try` body raises (network error, malformed JSON, missing or
ill-typed fields), the handler returns `None` / the empty list, and
`get_current_weather` always returns either `None` or a snapshot. -/
theorem c10_exceptions_swallowed (respCur respFor : ProviderResult) (now : ℕ)
    (ord : List String → List String) :
    (∀ e, fetch_current_body respCur now = Except.error e →
        get_current_weather respCur now = none) ∧
    (∀ e, fetch_forecast_body respFor ord = Except.error e →
        get_weekly_forecast respFor ord = []) ∧
    (get_current_weather respCur now = none ∨
        ∃ w, get_current_weather respCur now = some w) := by
  refine ⟨?_, ?_, ?_⟩
  · intro e he
    unfold get_current_weather
    rw [he]
  · intro e he
    unfold get_weekly_forecast
    rw [he]
  · cases hw : get_current_weather respCur now
    · exact Or.inl rfl
    · exact Or.inr ⟨_, rfl⟩

/-- C10 witness: a malformed-JSON 200 response is swallowed by both
functions. -/
theorem c10_exceptions_swallowed_witness :
    get_current_weather respBadJson 0 = none ∧
    get_weekly_forecast respBadJson dedupFirst = [] := by
  have h := c10_exceptions_swallowed respBadJson respBadJson 0 dedupFirst
  exact ⟨h.1 PyExc.jsonError rfl, h.2.1 PyExc.jsonError rfl⟩
